import Mathlib

/-!
Shallow embedding of `src/main.py` and `src/main_v2.py` of the
`ffmeg-merger` repository, and proofs about the embedded operations.

Modelling conventions:
* Python floats (durations, timestamps, clock values) are modelled as `ℚ`.
  All values the claims mention are exactly representable.
* `time.time()` is passed in explicitly as a `now : ℚ` argument.  Where a
  handler reads the clock more than once in immediate succession
  (`get_temp_image` calls `cleanup_expired_images` and then compares
  `expires_at < time.time()`), both reads are modelled at the same instant.
* Temporary file paths produced by `tempfile.NamedTemporaryFile` are opaque,
  fresh, unique OS names; they are modelled by a monotone allocation counter
  (`ℕ`), and rendered to an OS path string inside command vectors through the
  oracle `Env.pathStr`.
* The filesystem is the list of temporary files currently existing.
* External effects (HTTP download success, ffprobe output, ffmpeg exit
  status, stderr contents, Python float formatting, uuid generation, file
  contents) are oracles collected in `Env`.
-/

namespace FfmpegService

/-- One entry of the in-memory `temp_images` dict of `src/main.py` (line 19):
`{image_id: {"path": str, "expires_at": float, "mime_type": str}}`.
The backing file path is an allocation-counter name (see module docstring). -/
structure ImageEntry where
  path : Nat
  expires_at : ℚ
  mime_type : String
deriving DecidableEq, Repr

/-- The `temp_images` dict, as an insertion-ordered association list from
image id to entry.  The Python dict invariant (each key occurs once) is taken
as a `Nodup` hypothesis where a proof needs it. -/
abbrev Store := List (String × ImageEntry)

/-- Python dict lookup `temp_images[image_id]` / `image_id in temp_images`:
first (only, given nodup keys) entry with the given key. -/
def lookupEntry : Store → String → Option ImageEntry
  | [], _ => none
  | kv :: rest, i => if kv.1 = i then some kv.2 else lookupEntry rest i

/-- `os.unlink(p)` wrapped in `try/except: pass` (`src/main.py` lines 31-34
and 383-386): best-effort removal of `p` from the filesystem; when the unlink
raises (oracle `ok p = false`) the exception is swallowed and the filesystem
is unchanged. -/
def unlinkTry (ok : Nat → Bool) (p : Nat) (fs : List Nat) : List Nat :=
  if ok p then fs.filter (fun q => decide (q ≠ p)) else fs

/-- The id list built by `cleanup_expired_images` (`src/main.py` lines 25-28):
ids of entries with `expires_at < current_time` (strict, as in the source). -/
def expiredIds (now : ℚ) (st : Store) : List String :=
  (st.filter (fun kv => decide (kv.2.expires_at < now))).map Prod.fst

/-- `cleanup_expired_images` (`src/main.py` lines 22-37): collect the ids
whose `expires_at < current_time`, best-effort-unlink each one's backing
file, delete each collected id from the dict, and return how many ids were
collected.  Returns (new store, new filesystem, return value). -/
def cleanup_expired_images (now : ℚ) (ok : Nat → Bool) (st : Store) (fs : List Nat) :
    Store × List Nat × Nat :=
  let ids := expiredIds now st
  let fs' := ids.foldl (fun acc i =>
      match lookupEntry st i with
      | some e => unlinkTry ok e.path acc
      | none => acc) fs
  (st.filter (fun kv => !(ids.contains kv.1)), fs', ids.length)

/-- Outcome of `GET /temp-image/{image_id}` (`src/main.py` lines 367-394):
`notFound` is the `HTTPException(404, "Image not found or expired")`,
`expired` is the `HTTPException(410, "Image has expired")`, and `live` is the
`FileResponse(path, media_type)` of a live artifact. -/
inductive ImageResult where
  | notFound
  | expired
  | live (path : Nat) (mime : String)
deriving DecidableEq, Repr

/-- `get_temp_image` (`src/main.py` lines 367-394): sweep, then look the id
up; absent id → 404; present but `expires_at < time.time()` → best-effort
unlink, delete entry, 410; otherwise serve the file.  Both clock reads are
modelled at the same instant `now`. -/
def get_temp_image (now : ℚ) (ok : Nat → Bool) (image_id : String) (st : Store)
    (fs : List Nat) : ImageResult × Store × List Nat :=
  let c := cleanup_expired_images now ok st fs
  let st1 := c.1
  let fs1 := c.2.1
  match lookupEntry st1 image_id with
  | none => (.notFound, st1, fs1)
  | some e =>
    if e.expires_at < now then
      (.expired, st1.filter (fun kv => decide (kv.1 ≠ image_id)),
        unlinkTry ok e.path fs1)
    else
      (.live e.path e.mime_type, st1, fs1)

/-! ## Request/environment model for the pipeline endpoints -/

/-- `MergeRequest` (`src/main.py` lines 39-42, identically `src/main_v2.py`
lines 13-16); `HttpUrl` fields are modelled as the url strings the handlers
convert them to. -/
structure MergeRequest where
  video_url : String
  audio_url : String
  target_duration : Option ℚ := none
deriving DecidableEq, Repr

/-- `StitchRequest` (`src/main.py` lines 44-45, `src/main_v2.py` 18-19). -/
structure StitchRequest where
  video_urls : List String
deriving DecidableEq, Repr

/-- `FrameExtractRequest` (`src/main.py` lines 47-51).  `url_expiry_seconds`
is an int in the source; it is kept in `ℚ` because it is only ever added to
the clock. -/
structure FrameExtractRequest where
  video_url : String
  timestamps : List ℚ
  return_urls : Bool := false
  url_expiry_seconds : ℚ := 300
deriving DecidableEq, Repr

/-- Externally observable side effects of a request. -/
inductive Ev where
  /-- `requests.get(url, stream=True)` was called. -/
  | httpGet (url : String)
  /-- A subprocess (`ffprobe` or `ffmpeg`) was invoked with this argv. -/
  | ran (cmd : List String)
deriving DecidableEq, Repr

/-- Request-scoped world state: the `tempfile` allocation counter, the set of
temporary files currently on disk, and the log of external effects. -/
structure FS where
  counter : Nat
  files : List Nat
  events : List Ev
deriving DecidableEq, Repr

/-- The empty initial world of a fresh request. -/
def fs0 : FS := ⟨0, [], []⟩

/-- Oracles for everything outside the program: network, subprocesses,
Python float formatting, uuid generation, file contents. -/
structure Env where
  /-- Does `requests.get(url)` + `raise_for_status()` succeed? -/
  fetchOk : String → Bool
  /-- `str(e)` of the `requests.exceptions.RequestException` for this url. -/
  fetchErr : String → String
  /-- `ffprobe` duration of the file at this path; `none` means the probe
  exited non-zero (`subprocess.CalledProcessError`). -/
  probe : Nat → Option ℚ
  /-- Detail string of the 500 response produced when a probe fails.  (In the
  source, formatting that response itself raises `AttributeError` —
  `CalledProcessError.stderr` is `None` for `check_output` without stderr
  capture — so the client sees the framework's generic 500; the detail text
  is left to the oracle.) -/
  probeFailDetail : Nat → String
  /-- Does this `ffmpeg` invocation exit 0? -/
  ffmpegOk : List String → Bool
  /-- `e.stderr.decode()` of a failed `ffmpeg` invocation. -/
  stderr : List String → String
  /-- Python `str()` of a float, used in f-strings. -/
  fmt : ℚ → String
  /-- OS path string of the temp file with allocation number `n`. -/
  pathStr : Nat → String
  /-- `str(uuid.uuid4())` for the n-th uuid drawn in a request. -/
  uuid : Nat → String
  /-- Base64-encoded contents of the file at this path. -/
  contents : Nat → String
  /-- Unlink-success oracle for the best-effort deletes of the store. -/
  unlinkOk : Nat → Bool

/-- A response produced by an endpoint handler.  `error s d` is an
`HTTPException`/JSON error with HTTP status `s` and detail `d`. -/
inductive FramePayload where
  | b64 (data : String)
  | url (image_id : String) (expires_at : ℚ) (expires_in_seconds : ℚ)
deriving DecidableEq, Repr

/-- One element of the `frames` list of the extract-frames response
(`src/main.py` lines 324-332 and 340-346). -/
structure FrameInfo where
  timestamp : ℚ
  frame_number : Nat
  payload : FramePayload
  filename : String
deriving DecidableEq, Repr

/-- An HTTP response of one of the three pipeline endpoints.  `frames` also
carries `success=True` and `frames_count = frames.length` in the source; both
are determined by the listed fields. -/
inductive Response where
  | file (path : Nat) (media_type : String) (filename : String)
  | frames (video_url : String) (video_duration : ℚ) (return_type : String)
      (frames : List FrameInfo)
  | error (status : Nat) (detail : String)
deriving DecidableEq, Repr

/-- `str(e)` of a starlette `HTTPException` — what the broad
`except Exception` handler turns a handler-raised `HTTPException` into
(`HTTPException.__str__` is `f"{self.status_code}: {self.detail}"`). -/
def httpExcStr (status : Nat) (detail : String) : String :=
  toString status ++ ": " ++ detail

/-- `tempfile.NamedTemporaryFile(delete=False, ...)`: allocate a fresh path;
the file exists from this point on. -/
def newTemp (fs : FS) : Nat × FS :=
  (fs.counter, { fs with counter := fs.counter + 1, files := fs.files ++ [fs.counter] })

/-- An ordinary (unguarded) `os.unlink(p)` on an endpoint's own temp file. -/
def removeFile (p : Nat) (fs : FS) : FS :=
  { fs with files := fs.files.filter (fun q => decide (q ≠ p)) }

/-- `download_file` (`src/main.py` lines 53-63, `src/main_v2.py` 21-31):
`requests.get` + `raise_for_status`, then stream into a fresh
`NamedTemporaryFile`.  On a fetch failure no temp file has been created yet.
The suffix only affects the OS name, which the counter model absorbs. -/
def download_file (env : Env) (url : String) (fs : FS) : Option Nat × FS :=
  let fs := { fs with events := fs.events ++ [Ev.httpGet url] }
  if env.fetchOk url then
    let (p, fs) := newTemp fs
    (some p, fs)
  else
    (none, fs)

/-- The `ffprobe` argv of `get_duration` (`src/main.py` lines 67-72). -/
def probeCmd (env : Env) (p : Nat) : List String :=
  ["ffprobe", "-v", "error", "-show_entries", "format=duration",
   "-of", "default=noprint_wrappers=1:nokey=1", env.pathStr p]

/-- `get_duration` (`src/main.py` lines 65-73, `src/main_v2.py` 33-41). -/
def get_duration (env : Env) (p : Nat) (fs : FS) : Option ℚ × FS :=
  let fs := { fs with events := fs.events ++ [Ev.ran (probeCmd env p)] }
  (env.probe p, fs)

/-- The sync-duration choice of `merge_audio_video` (`src/main.py` lines
84-90): `if target_duration:` is Python truthiness, so both `None` and `0.0`
fall through to `min(video_duration, audio_duration)`. -/
def sync_duration (target_duration : Option ℚ) (video_duration audio_duration : ℚ) : ℚ :=
  match target_duration with
  | some t => if t = 0 then min video_duration audio_duration else t
  | none => min video_duration audio_duration

/-- The speed-adjustment of `merge_audio_video` (`src/main.py` line 93):
`video_duration / audio_duration if audio_duration > 0 else 1.0`. -/
def speed_factor (video_duration audio_duration : ℚ) : ℚ :=
  if 0 < audio_duration then video_duration / audio_duration else 1

/-- The `ffmpeg` argv of `merge_audio_video` (`src/main.py` lines 95-110). -/
def mergeCmd (env : Env) (video_path audio_path output_path : Nat) (speed sync : ℚ) :
    List String :=
  ["ffmpeg", "-y",
   "-i", env.pathStr video_path,
   "-i", env.pathStr audio_path,
   "-filter_complex",
   "[0:v]setpts=PTS*" ++ env.fmt speed ++ ",trim=duration=" ++ env.fmt sync
     ++ "[v];[1:a]atrim=0:" ++ env.fmt sync ++ "[a]",
   "-map", "[v]", "-map", "[a]",
   "-c:v", "libx264", "-preset", "fast",
   "-c:a", "aac", "-b:a", "192k",
   "-shortest", env.pathStr output_path]

/-- How a tool-invoking helper ends: normally, or by raising
`CalledProcessError` from `ffprobe` (`check_output`) or `ffmpeg` (`run` with
`check=True`). -/
inductive ToolOutcome where
  | ok
  | probeFail (path : Nat)
  | ffmpegFail (cmd : List String)
deriving DecidableEq, Repr

/-- `merge_audio_video` (`src/main.py` lines 75-112): probe both durations,
pick the sync duration and speed factor, invoke `ffmpeg`. -/
def merge_audio_video (env : Env) (video_path audio_path output_path : Nat)
    (target_duration : Option ℚ) (fs : FS) : ToolOutcome × FS :=
  match get_duration env video_path fs with
  | (none, fs) => (.probeFail video_path, fs)
  | (some video_duration, fs) =>
    match get_duration env audio_path fs with
    | (none, fs) => (.probeFail audio_path, fs)
    | (some audio_duration, fs) =>
      let command := mergeCmd env video_path audio_path output_path
        (speed_factor video_duration audio_duration)
        (sync_duration target_duration video_duration audio_duration)
      let fs := { fs with events := fs.events ++ [Ev.ran command] }
      if env.ffmpegOk command then (.ok, fs) else (.ffmpegFail command, fs)

/-- `stitch_videos` (`src/main.py` lines 114-138): write the concat list to a
fresh temp file, run `ffmpeg -f concat`, and unlink the list file afterwards
— the unlink is skipped when `ffmpeg` fails, because `check=True` raises
first.  (The list file's textual content, one `file` line per input, is not
needed by any claim and is not modelled.) -/
def stitch_videos (env : Env) (video_paths : List Nat) (output_path : Nat) (fs : FS) :
    ToolOutcome × FS :=
  let (concat_name, fs) := newTemp fs
  let command := ["ffmpeg", "-y", "-f", "concat", "-safe", "0",
    "-i", env.pathStr concat_name, "-c", "copy", env.pathStr output_path]
  let fs := { fs with events := fs.events ++ [Ev.ran command] }
  if env.ffmpegOk command then
    (.ok, removeFile concat_name fs)
  else
    (.ffmpegFail command, fs)

/-- The `ffmpeg` argv of one frame extraction (`src/main.py` lines 148-156). -/
def frameCmd (env : Env) (timestamp : ℚ) (video_path frame_path : Nat) : List String :=
  ["ffmpeg", "-y", "-ss", env.fmt timestamp, "-i", env.pathStr video_path,
   "-frames:v", "1", "-q:v", "2", env.pathStr frame_path]

/-- `extract_frames` (`src/main.py` lines 140-161): for each timestamp in
order, allocate a frame file and run one `ffmpeg` seek+decode; a non-zero
exit raises immediately, leaving the already-written frame files behind. -/
def extract_frames (env : Env) (video_path : Nat) :
    List ℚ → FS → Except (List String) (List Nat) × FS
  | [], fs => (.ok [], fs)
  | timestamp :: rest, fs =>
    let (frame_path, fs) := newTemp fs
    let command := frameCmd env timestamp video_path frame_path
    let fs := { fs with events := fs.events ++ [Ev.ran command] }
    if env.ffmpegOk command then
      match extract_frames env video_path rest fs with
      | (.error c, fs) => (.error c, fs)
      | (.ok ps, fs) => (.ok (frame_path :: ps), fs)
    else
      (.error command, fs)

/-- `POST /merge` (`src/main.py` lines 163-208): download both inputs, merge
into a fresh output file, unlink the two inputs, and stream the output.
`RequestException` → 400, `CalledProcessError` → 500, the inputs being
unlinked only on the success path. -/
def merge (env : Env) (request : MergeRequest) (fs : FS) : Response × FS :=
  match download_file env request.video_url fs with
  | (none, fs) =>
    (.error 400 ("Failed to download file: " ++ env.fetchErr request.video_url), fs)
  | (some video_path, fs) =>
    match download_file env request.audio_url fs with
    | (none, fs) =>
      (.error 400 ("Failed to download file: " ++ env.fetchErr request.audio_url), fs)
    | (some audio_path, fs) =>
      let (output_path, fs) := newTemp fs
      match merge_audio_video env video_path audio_path output_path
          request.target_duration fs with
      | (.probeFail p, fs) => (.error 500 (env.probeFailDetail p), fs)
      | (.ffmpegFail cmd, fs) => (.error 500 ("FFmpeg error: " ++ env.stderr cmd), fs)
      | (.ok, fs) =>
        let fs := removeFile video_path fs
        let fs := removeFile audio_path fs
        (.file output_path "video/mp4" "merged_output.mp4", fs)

/-- The download loop of `stitch` (`src/main.py` lines 230-233): download the
urls in order; the first failure aborts the loop (`Except.error` carries the
failing url), leaving the earlier downloads on disk. -/
def downloadAll (env : Env) : List String → FS → Except String (List Nat) × FS
  | [], fs => (.ok [], fs)
  | url :: rest, fs =>
    match download_file env url fs with
    | (none, fs) => (.error url, fs)
    | (some p, fs) =>
      match downloadAll env rest fs with
      | (.error u, fs) => (.error u, fs)
      | (.ok ps, fs) => (.ok (p :: ps), fs)

/-- `POST /stitch` (`src/main.py` lines 210-258).  The `< 2` validation
raises `HTTPException(400)` *inside* the handler's `try`; the handler's own
`except Exception` clause catches it (starlette's `HTTPException` subclasses
`Exception`) and re-raises `HTTPException(500, str(e))`, so the client
receives a 500. -/
def stitch (env : Env) (request : StitchRequest) (fs : FS) : Response × FS :=
  if request.video_urls.length < 2 then
    (.error 500 (httpExcStr 400 "At least 2 videos are required"), fs)
  else
    match downloadAll env request.video_urls fs with
    | (.error url, fs) =>
      (.error 400 ("Failed to download file: " ++ env.fetchErr url), fs)
    | (.ok video_paths, fs) =>
      let (output_path, fs) := newTemp fs
      match stitch_videos env video_paths output_path fs with
      | (.probeFail p, fs) => (.error 500 (env.probeFailDetail p), fs)
      | (.ffmpegFail cmd, fs) => (.error 500 ("FFmpeg error: " ++ env.stderr cmd), fs)
      | (.ok, fs) =>
        let fs := video_paths.foldl (fun acc p => removeFile p acc) fs
        (.file output_path "video/mp4" "stitched_output.mp4", fs)

/-- The url-mode loop of `extract_frames_endpoint` (`src/main.py` lines
307-332): register each frame in `temp_images` under a fresh uuid (dict
insertion appends, uuids are fresh) and build the frame metadata entries. -/
def registerFrames (env : Env) (expiry_time expiry_seconds : ℚ) :
    List (ℚ × Nat) → Nat → Store → List FrameInfo × Store
  | [], _, st => ([], st)
  | (ts, p) :: rest, i, st =>
    let image_id := env.uuid i
    let st := st ++ [(image_id, ⟨p, expiry_time, "image/jpeg"⟩)]
    let info : FrameInfo :=
      ⟨ts, i, .url image_id expiry_time expiry_seconds,
        "frame_" ++ toString i ++ "_at_" ++ env.fmt ts ++ "s.jpg"⟩
    let (infos, st) := registerFrames env expiry_time expiry_seconds rest (i + 1) st
    (info :: infos, st)

/-- The base64-mode loop of `extract_frames_endpoint` (`src/main.py` lines
333-349): encode each frame file and unlink it. -/
def encodeFrames (env : Env) : List (ℚ × Nat) → Nat → FS → List FrameInfo × FS
  | [], _, fs => ([], fs)
  | (ts, p) :: rest, i, fs =>
    let info : FrameInfo :=
      ⟨ts, i, .b64 (env.contents p),
        "frame_" ++ toString i ++ "_at_" ++ env.fmt ts ++ "s.jpg"⟩
    let fs := removeFile p fs
    let (infos, fs) := encodeFrames env rest (i + 1) fs
    (info :: infos, fs)

/-- `POST /extract-frames` (`src/main.py` lines 260-365).  Both internal
`HTTPException(400)` raises (empty timestamp list, out-of-range timestamp)
are swallowed by the handler's `except Exception` and re-raised as 500, like
in `stitch`.  The out-of-range check unlinks the video before raising and
runs before any extraction; on the happy path the video is unlinked, the
expired store entries are swept, and the frames are either registered (url
mode) or base64-encoded and unlinked (default). -/
def extract_frames_endpoint (env : Env) (request : FrameExtractRequest) (now : ℚ)
    (st : Store) (fs : FS) : Response × Store × FS :=
  if request.timestamps.isEmpty then
    (.error 500 (httpExcStr 400 "At least one timestamp is required"), st, fs)
  else
    match download_file env request.video_url fs with
    | (none, fs) =>
      (.error 400 ("Failed to download file: " ++ env.fetchErr request.video_url), st, fs)
    | (some video_path, fs) =>
      match get_duration env video_path fs with
      | (none, fs) => (.error 500 (env.probeFailDetail video_path), st, fs)
      | (some video_duration, fs) =>
        match request.timestamps.find? (fun ts => decide (ts < 0 ∨ video_duration < ts)) with
        | some ts =>
          let fs := removeFile video_path fs
          (.error 500 (httpExcStr 400 ("Timestamp " ++ env.fmt ts
              ++ "s is out of range. Video duration is " ++ env.fmt video_duration ++ "s")),
            st, fs)
        | none =>
          match extract_frames env video_path request.timestamps fs with
          | (.error cmd, fs) =>
            (.error 500 ("FFmpeg error: " ++ env.stderr cmd), st, fs)
          | (.ok frame_paths, fs) =>
            let fs := removeFile video_path fs
            let c := cleanup_expired_images now env.unlinkOk st fs.files
            let st := c.1
            let fs := { fs with files := c.2.1 }
            if request.return_urls then
              let expiry_time := now + request.url_expiry_seconds
              let (frames_data, st) := registerFrames env expiry_time
                request.url_expiry_seconds (request.timestamps.zip frame_paths) 0 st
              (.frames request.video_url video_duration "urls" frames_data, st, fs)
            else
              let (frames_data, fs) := encodeFrames env
                (request.timestamps.zip frame_paths) 0 fs
              (.frames request.video_url video_duration "base64" frames_data, st, fs)

/-! ## `src/main_v2.py`

The same request types apply (`MergeRequest` lines 13-16, `StitchRequest`
lines 18-19 are field-for-field the ones of `src/main.py`); the functions
below are translated independently from `src/main_v2.py`. -/

namespace V2

/-- `download_file` (`src/main_v2.py` lines 21-31). -/
def download_file (env : Env) (url : String) (fs : FS) : Option Nat × FS :=
  let fs := { fs with events := fs.events ++ [Ev.httpGet url] }
  if env.fetchOk url then
    let (p, fs) := newTemp fs
    (some p, fs)
  else
    (none, fs)

/-- The `ffprobe` argv of `get_duration` (`src/main_v2.py` lines 35-40). -/
def probeCmd (env : Env) (p : Nat) : List String :=
  ["ffprobe", "-v", "error", "-show_entries", "format=duration",
   "-of", "default=noprint_wrappers=1:nokey=1", env.pathStr p]

/-- `get_duration` (`src/main_v2.py` lines 33-41). -/
def get_duration (env : Env) (p : Nat) (fs : FS) : Option ℚ × FS :=
  let fs := { fs with events := fs.events ++ [Ev.ran (probeCmd env p)] }
  (env.probe p, fs)

/-- The sync-duration choice of `merge_audio_video` (`src/main_v2.py` lines
52-58), with the same Python-truthiness reading of `if target_duration:`. -/
def sync_duration (target_duration : Option ℚ) (video_duration audio_duration : ℚ) : ℚ :=
  match target_duration with
  | some t => if t = 0 then min video_duration audio_duration else t
  | none => min video_duration audio_duration

/-- The speed factor of `merge_audio_video` (`src/main_v2.py` line 61). -/
def speed_factor (video_duration audio_duration : ℚ) : ℚ :=
  if 0 < audio_duration then video_duration / audio_duration else 1

/-- The `ffmpeg` argv of `merge_audio_video` (`src/main_v2.py` lines 63-78). -/
def mergeCmd (env : Env) (video_path audio_path output_path : Nat) (speed sync : ℚ) :
    List String :=
  ["ffmpeg", "-y",
   "-i", env.pathStr video_path,
   "-i", env.pathStr audio_path,
   "-filter_complex",
   "[0:v]setpts=PTS*" ++ env.fmt speed ++ ",trim=duration=" ++ env.fmt sync
     ++ "[v];[1:a]atrim=0:" ++ env.fmt sync ++ "[a]",
   "-map", "[v]", "-map", "[a]",
   "-c:v", "libx264", "-preset", "fast",
   "-c:a", "aac", "-b:a", "192k",
   "-shortest", env.pathStr output_path]

/-- `merge_audio_video` (`src/main_v2.py` lines 43-80). -/
def merge_audio_video (env : Env) (video_path audio_path output_path : Nat)
    (target_duration : Option ℚ) (fs : FS) : ToolOutcome × FS :=
  match get_duration env video_path fs with
  | (none, fs) => (.probeFail video_path, fs)
  | (some video_duration, fs) =>
    match get_duration env audio_path fs with
    | (none, fs) => (.probeFail audio_path, fs)
    | (some audio_duration, fs) =>
      let command := mergeCmd env video_path audio_path output_path
        (speed_factor video_duration audio_duration)
        (sync_duration target_duration video_duration audio_duration)
      let fs := { fs with events := fs.events ++ [Ev.ran command] }
      if env.ffmpegOk command then (.ok, fs) else (.ffmpegFail command, fs)

/-- `stitch_videos` (`src/main_v2.py` lines 82-106). -/
def stitch_videos (env : Env) (video_paths : List Nat) (output_path : Nat) (fs : FS) :
    ToolOutcome × FS :=
  let (concat_name, fs) := newTemp fs
  let command := ["ffmpeg", "-y", "-f", "concat", "-safe", "0",
    "-i", env.pathStr concat_name, "-c", "copy", env.pathStr output_path]
  let fs := { fs with events := fs.events ++ [Ev.ran command] }
  if env.ffmpegOk command then
    (.ok, removeFile concat_name fs)
  else
    (.ffmpegFail command, fs)

/-- `POST /merge` (`src/main_v2.py` lines 108-153). -/
def merge (env : Env) (request : MergeRequest) (fs : FS) : Response × FS :=
  match download_file env request.video_url fs with
  | (none, fs) =>
    (.error 400 ("Failed to download file: " ++ env.fetchErr request.video_url), fs)
  | (some video_path, fs) =>
    match download_file env request.audio_url fs with
    | (none, fs) =>
      (.error 400 ("Failed to download file: " ++ env.fetchErr request.audio_url), fs)
    | (some audio_path, fs) =>
      let (output_path, fs) := newTemp fs
      match merge_audio_video env video_path audio_path output_path
          request.target_duration fs with
      | (.probeFail p, fs) => (.error 500 (env.probeFailDetail p), fs)
      | (.ffmpegFail cmd, fs) => (.error 500 ("FFmpeg error: " ++ env.stderr cmd), fs)
      | (.ok, fs) =>
        let fs := removeFile video_path fs
        let fs := removeFile audio_path fs
        (.file output_path "video/mp4" "merged_output.mp4", fs)

/-- The download loop of `stitch` (`src/main_v2.py` lines 175-178). -/
def downloadAll (env : Env) : List String → FS → Except String (List Nat) × FS
  | [], fs => (.ok [], fs)
  | url :: rest, fs =>
    match download_file env url fs with
    | (none, fs) => (.error url, fs)
    | (some p, fs) =>
      match downloadAll env rest fs with
      | (.error u, fs) => (.error u, fs)
      | (.ok ps, fs) => (.ok (p :: ps), fs)

/-- `POST /stitch` (`src/main_v2.py` lines 155-203), with the same
swallowed-`HTTPException` behaviour of the `< 2` validation. -/
def stitch (env : Env) (request : StitchRequest) (fs : FS) : Response × FS :=
  if request.video_urls.length < 2 then
    (.error 500 (httpExcStr 400 "At least 2 videos are required"), fs)
  else
    match downloadAll env request.video_urls fs with
    | (.error url, fs) =>
      (.error 400 ("Failed to download file: " ++ env.fetchErr url), fs)
    | (.ok video_paths, fs) =>
      let (output_path, fs) := newTemp fs
      match stitch_videos env video_paths output_path fs with
      | (.probeFail p, fs) => (.error 500 (env.probeFailDetail p), fs)
      | (.ffmpegFail cmd, fs) => (.error 500 ("FFmpeg error: " ++ env.stderr cmd), fs)
      | (.ok, fs) =>
        let fs := video_paths.foldl (fun acc p => removeFile p acc) fs
        (.file output_path "video/mp4" "stitched_output.mp4", fs)

end V2

/-! ## Concrete instances used by counterexamples and witnesses -/

/-- A benign environment: every download, probe (duration 6s) and `ffmpeg`
run succeeds. -/
def demoEnv : Env where
  fetchOk := fun _ => true
  fetchErr := fun _ => "connection error"
  probe := fun _ => some 6
  probeFailDetail := fun _ => "Internal Server Error"
  ffmpegOk := fun _ => true
  stderr := fun _ => "boom"
  fmt := fun q => toString q.num
  pathStr := fun n => "/tmp/t" ++ toString n
  uuid := fun i => "uuid-" ++ toString i
  contents := fun p => "b64-" ++ toString p
  unlinkOk := fun _ => true

/-- `demoEnv`, except that downloading `http://host/a.mp3` fails. -/
def envAudioFails : Env :=
  { demoEnv with fetchOk := fun u => !(u == "http://host/a.mp3") }

/-- A two-entry store: one expired at `now = 5`, one not. -/
def demoStore : Store := [("a", ⟨0, 1, "image/jpeg"⟩), ("b", ⟨1, 10, "image/jpeg"⟩)]

/-! ## Helper lemmas about the artifact store -/

theorem lookupEntry_mem {st : Store} {i : String} {e : ImageEntry}
    (h : lookupEntry st i = some e) : (i, e) ∈ st := by
  induction st with
  | nil => exact absurd h (by simp [lookupEntry])
  | cons kv rest ih =>
    rw [lookupEntry] at h
    split at h
    · next hk =>
      injection h with h2
      subst h2
      obtain ⟨a, b⟩ := kv
      obtain rfl : a = i := hk
      exact List.mem_cons_self _ _
    · exact List.mem_cons_of_mem _ (ih h)

theorem lookupEntry_eq_none {st : Store} {i : String}
    (h : ∀ e : ImageEntry, (i, e) ∉ st) : lookupEntry st i = none := by
  induction st with
  | nil => rfl
  | cons kv rest ih =>
    rw [lookupEntry]
    split
    · next hk =>
      obtain ⟨a, b⟩ := kv
      obtain rfl : a = i := hk
      exact absurd (List.mem_cons_self _ _) (h b)
    · exact ih fun e he => h e (List.mem_cons_of_mem _ he)

theorem lookupEntry_filter_none {st : Store} {i : String} (p : String × ImageEntry → Bool)
    (h : lookupEntry st i = none) : lookupEntry (st.filter p) i = none := by
  induction st with
  | nil => rfl
  | cons kv rest ih =>
    rw [lookupEntry] at h
    split at h
    · exact absurd h (by simp)
    · next hk =>
      cases hpk : p kv
      · rw [List.filter_cons_of_neg (by simp [hpk])]
        exact ih h
      · rw [List.filter_cons_of_pos (by simp [hpk])]
        rw [lookupEntry, if_neg hk]
        exact ih h

theorem mem_eq_of_nodupKeys {st : Store} (h : (st.map Prod.fst).Nodup)
    {i : String} {a b : ImageEntry} (ha : (i, a) ∈ st) (hb : (i, b) ∈ st) : a = b := by
  induction st with
  | nil => simp at ha
  | cons kv rest ih =>
    rw [List.map_cons, List.nodup_cons] at h
    rcases List.mem_cons.mp ha with ha1 | ha2 <;> rcases List.mem_cons.mp hb with hb1 | hb2
    · rw [← ha1] at hb1; exact (Prod.mk.injEq .. ▸ hb1.symm).2
    · exact absurd (List.mem_map_of_mem Prod.fst hb2)
        (by rw [← ha1] at h; exact h.1)
    · exact absurd (List.mem_map_of_mem Prod.fst ha2)
        (by rw [← hb1] at h; exact h.1)
    · exact ih h.2 ha2 hb2

theorem lookupEntry_filter_key (st : Store) (i : String) (p : String → Bool)
    (hp : p i = true) :
    lookupEntry (st.filter (fun kv => p kv.1)) i = lookupEntry st i := by
  induction st with
  | nil => rfl
  | cons kv rest ih =>
    by_cases hk : kv.1 = i
    · rw [List.filter_cons_of_pos (by simpa [hk] using hp)]
      rw [lookupEntry, lookupEntry, if_pos hk, if_pos hk]
    · cases hpk : p kv.1
      · rw [List.filter_cons_of_neg (by simp [hpk])]
        rw [ih, lookupEntry, if_neg hk]
      · rw [List.filter_cons_of_pos (by simp [hpk])]
        rw [lookupEntry, lookupEntry, if_neg hk, if_neg hk, ih]

theorem mem_expiredIds {now : ℚ} {st : Store} {i : String} :
    i ∈ expiredIds now st ↔ ∃ e : ImageEntry, (i, e) ∈ st ∧ e.expires_at < now := by
  constructor
  · intro h
    simp only [expiredIds, List.mem_map] at h
    obtain ⟨kv, hkv, rfl⟩ := h
    rw [List.mem_filter] at hkv
    exact ⟨kv.2, by simpa using hkv.1, by simpa using hkv.2⟩
  · rintro ⟨e, he, hlt⟩
    simp only [expiredIds, List.mem_map]
    exact ⟨(i, e), List.mem_filter.mpr ⟨he, by simpa using hlt⟩, rfl⟩

theorem nodupKeys_filter {st : Store} (p : String × ImageEntry → Bool)
    (h : (st.map Prod.fst).Nodup) : ((st.filter p).map Prod.fst).Nodup :=
  h.sublist (List.Sublist.map Prod.fst (List.filter_sublist st))

theorem not_mem_unlinkTry {ok : Nat → Bool} {q p : Nat} {fs : List Nat}
    (h : p ∉ fs) : p ∉ unlinkTry ok q fs := by
  unfold unlinkTry
  split
  · exact fun hc => h (List.mem_of_mem_filter hc)
  · exact h

theorem not_mem_unlinkTry_self {ok : Nat → Bool} {p : Nat} {fs : List Nat}
    (hok : ok p = true) : p ∉ unlinkTry ok p fs := by
  unfold unlinkTry
  rw [if_pos hok]
  intro hc
  simpa using (List.mem_filter.mp hc).2

theorem not_mem_foldl_unlink {st : Store} {ok : Nat → Bool} {p : Nat} :
    ∀ (ids : List String) (fs : List Nat), p ∉ fs →
      p ∉ ids.foldl (fun acc i =>
        match lookupEntry st i with
        | some e => unlinkTry ok e.path acc
        | none => acc) fs := by
  intro ids
  induction ids with
  | nil => exact fun fs h => h
  | cons j rest ih =>
    intro fs h
    rw [List.foldl_cons]
    cases hj : lookupEntry st j with
    | none => simpa [hj] using ih fs h
    | some x => simpa [hj] using ih _ (not_mem_unlinkTry h)

theorem foldl_unlink_removes {st : Store} {ok : Nat → Bool} {i : String} {e : ImageEntry}
    (hok : ok e.path = true) (hlook : lookupEntry st i = some e) :
    ∀ (ids : List String) (fs : List Nat), i ∈ ids →
      e.path ∉ ids.foldl (fun acc j =>
        match lookupEntry st j with
        | some x => unlinkTry ok x.path acc
        | none => acc) fs := by
  intro ids
  induction ids with
  | nil => intro fs h; simp at h
  | cons j rest ih =>
    intro fs hmem
    rw [List.foldl_cons]
    rcases List.mem_cons.mp hmem with rfl | hmem'
    · rw [hlook]
      exact not_mem_foldl_unlink rest _ (not_mem_unlinkTry_self hok)
    · cases hj : lookupEntry st j with
      | none => exact ih _ hmem'
      | some x => exact ih _ hmem'

theorem cleanup_store_eq_filter {now : ℚ} {st : Store} (hnd : (st.map Prod.fst).Nodup)
    (ok : Nat → Bool) (fs : List Nat) :
    (cleanup_expired_images now ok st fs).1
      = st.filter (fun kv => !(decide (kv.2.expires_at < now))) := by
  show st.filter _ = st.filter _
  apply List.filter_congr
  intro kv hkv
  by_cases hx : kv.2.expires_at < now
  · have : kv.1 ∈ expiredIds now st :=
      mem_expiredIds.mpr ⟨kv.2, by simpa using hkv, hx⟩
    simp [this, hx]
  · have : kv.1 ∉ expiredIds now st := by
      intro hc
      obtain ⟨e', he', hlt'⟩ := mem_expiredIds.mp hc
      have : e' = kv.2 := mem_eq_of_nodupKeys hnd he' (by simpa using hkv)
      exact hx (this ▸ hlt')
    simp [this, hx]

/-! ## Claim theorems about the artifact store -/

/-- C9: after `cleanup_expired_images` runs at instant `t`, every entry still
in `temp_images` has `expires_at >= t`; consequently, with `get_temp_image`'s
initial sweep and its later expiry check evaluated at the same instant, the
410 "Image has expired" branch is unreachable — an expired id is always
reported through the 404 branch. -/
theorem sweep_then_check_no_410 :
    (∀ (now : ℚ) (ok : Nat → Bool) (st : Store) (fs : List Nat)
        (kv : String × ImageEntry),
        kv ∈ (cleanup_expired_images now ok st fs).1 → now ≤ kv.2.expires_at) ∧
    (∀ (now : ℚ) (ok : Nat → Bool) (i : String) (st : Store) (fs : List Nat),
        (get_temp_image now ok i st fs).1 ≠ ImageResult.expired) := by
  have h1 : ∀ (now : ℚ) (ok : Nat → Bool) (st : Store) (fs : List Nat)
      (kv : String × ImageEntry),
      kv ∈ (cleanup_expired_images now ok st fs).1 → now ≤ kv.2.expires_at := by
    intro now ok st fs kv hkv
    have hm := List.mem_filter.mp hkv
    by_contra hlt
    have hexp : kv.2.expires_at < now := not_le.mp hlt
    have : kv.1 ∈ expiredIds now st :=
      mem_expiredIds.mpr ⟨kv.2, by simpa using hm.1, hexp⟩
    simp [this] at hm
  refine ⟨h1, ?_⟩
  intro now ok i st fs
  cases hl : lookupEntry (cleanup_expired_images now ok st fs).1 i with
  | none => simp [get_temp_image, hl]
  | some e =>
    have hle : now ≤ e.expires_at := h1 now ok st fs (i, e) (lookupEntry_mem hl)
    simp [get_temp_image, hl, not_lt.mpr hle]

/-- C9 witness: a concrete surviving entry satisfies the bound, and a
concrete resolve is not 410. -/
theorem sweep_then_check_no_410_witness :
    (5 : ℚ) ≤ (10 : ℚ) ∧
    (get_temp_image 301 (fun _ => true) "img" [("img", ⟨7, 300, "image/jpeg"⟩)]
        [7]).1 ≠ ImageResult.expired :=
  ⟨sweep_then_check_no_410.1 5 (fun _ => true) [("b", ⟨1, 10, "image/jpeg"⟩)] [1]
      ("b", ⟨1, 10, "image/jpeg"⟩) (by decide),
    sweep_then_check_no_410.2 301 (fun _ => true) "img"
      [("img", ⟨7, 300, "image/jpeg"⟩)] [7]⟩

/-- C1 counterexample: an artifact registered at time 0 with ttl 300
(`expires_at = 300`), resolved at `now = 301` (strictly after
registration + ttl), yields `notFound` (the 404 branch), not `expired`
(the 410 branch) — the claim's first resolve outcome is wrong. -/
theorem resolve_after_expiry_not_410_counterexample :
    (get_temp_image 301 (fun _ => true) "img" [("img", ⟨7, 300, "image/jpeg"⟩)]
        [7]).1 ≠ ImageResult.expired ∧
    (get_temp_image 301 (fun _ => true) "img" [("img", ⟨7, 300, "image/jpeg"⟩)]
        [7]).1 = ImageResult.notFound := by
  decide

/-- C1 (amended): resolving an id whose entry has `expires_at < now` returns
`notFound` (404) — the initial sweep removes the entry and best-effort
deletes its backing file before the lookup — and any subsequent resolve of
the same id again returns `notFound`; the entry is fully removed. -/
theorem resolve_after_expiry_returns_notFound
    (now now2 : ℚ) (ok ok2 : Nat → Bool) (i : String) (st : Store)
    (fs fs2 : List Nat) (e : ImageEntry)
    (hlook : lookupEntry st i = some e) (hexp : e.expires_at < now) :
    (get_temp_image now ok i st fs).1 = ImageResult.notFound ∧
    lookupEntry (get_temp_image now ok i st fs).2.1 i = none ∧
    ((∀ p, ok p = true) → e.path ∉ (get_temp_image now ok i st fs).2.2) ∧
    (get_temp_image now2 ok2 i (get_temp_image now ok i st fs).2.1 fs2).1
      = ImageResult.notFound := by
  have hid : i ∈ expiredIds now st :=
    mem_expiredIds.mpr ⟨e, lookupEntry_mem hlook, hexp⟩
  have hnone : lookupEntry (cleanup_expired_images now ok st fs).1 i = none := by
    apply lookupEntry_eq_none
    intro x hx
    have := (List.mem_filter.mp hx).2
    simp [hid] at this
  have hnone2 : lookupEntry
      (cleanup_expired_images now2 ok2 (cleanup_expired_images now ok st fs).1 fs2).1
      i = none := lookupEntry_filter_none _ hnone
  refine ⟨by simp [get_temp_image, hnone], by simp [get_temp_image, hnone],
    ?_, by simp [get_temp_image, hnone, hnone2]⟩
  intro hok
  have hfs : (get_temp_image now ok i st fs).2.2
      = (cleanup_expired_images now ok st fs).2.1 := by
    simp [get_temp_image, hnone]
  rw [hfs]
  exact foldl_unlink_removes (hok e.path) hlook _ fs hid

/-- C1 witness: the amended behaviour at the counterexample's input. -/
theorem resolve_after_expiry_returns_notFound_witness :
    (get_temp_image 301 (fun _ => true) "img" [("img", ⟨7, 300, "image/jpeg"⟩)]
        [7]).1 = ImageResult.notFound ∧
    (7 : Nat) ∉ (get_temp_image 301 (fun _ => true) "img"
        [("img", ⟨7, 300, "image/jpeg"⟩)] [7]).2.2 := by
  have h := resolve_after_expiry_returns_notFound 301 302 (fun _ => true)
    (fun _ => true) "img" [("img", ⟨7, 300, "image/jpeg"⟩)] [7] [7]
    ⟨7, 300, "image/jpeg"⟩ (by decide) (by norm_num)
  exact ⟨h.1, h.2.2.1 fun _ => rfl⟩

/-- C6 counterexample: at the boundary `expires_at = now` the sweep removes
nothing — the source condition is strict (`expires_at < current_time`), not
`expires_at <= now` as claimed: the entry survives, its file survives, and
the reclaim count is 0. -/
theorem sweep_boundary_counterexample :
    (5 : ℚ) ≤ (5 : ℚ) ∧
    (cleanup_expired_images 5 (fun _ => true) [("a", ⟨0, 5, "image/jpeg"⟩)] [0]).1
      = [("a", ⟨0, 5, "image/jpeg"⟩)] ∧
    (cleanup_expired_images 5 (fun _ => true) [("a", ⟨0, 5, "image/jpeg"⟩)] [0]).2.1
      = [0] ∧
    (cleanup_expired_images 5 (fun _ => true) [("a", ⟨0, 5, "image/jpeg"⟩)] [0]).2.2
      = 0 := by
  decide

/-- C6 (amended): on a store with distinct keys, the sweep removes exactly
the entries with `expires_at < now` (strict), leaves every other entry
untouched, returns the number removed, its effect on the store and its count
do not depend on whether the best-effort file unlinks succeed, and an
immediately repeated sweep reclaims 0. -/
theorem sweep_removes_strictly_expired (now : ℚ) (ok ok2 : Nat → Bool) (st : Store)
    (fs : List Nat) (hnd : (st.map Prod.fst).Nodup) :
    (cleanup_expired_images now ok st fs).1
      = st.filter (fun kv => !(decide (kv.2.expires_at < now))) ∧
    (cleanup_expired_images now ok st fs).2.2
      = (st.filter (fun kv => decide (kv.2.expires_at < now))).length ∧
    (∀ kv, kv ∈ st → kv.2.expires_at < now →
      kv ∉ (cleanup_expired_images now ok st fs).1) ∧
    (∀ kv, kv ∈ st → ¬ kv.2.expires_at < now →
      kv ∈ (cleanup_expired_images now ok st fs).1) ∧
    (cleanup_expired_images now ok2 st fs).1 = (cleanup_expired_images now ok st fs).1 ∧
    (cleanup_expired_images now ok2 st fs).2.2 = (cleanup_expired_images now ok st fs).2.2 ∧
    (cleanup_expired_images now ok
      (cleanup_expired_images now ok st fs).1
      (cleanup_expired_images now ok st fs).2.1).2.2 = 0 := by
  have hstore := @cleanup_store_eq_filter now st hnd ok fs
  refine ⟨hstore, ?_, ?_, ?_, rfl, rfl, ?_⟩
  · show (expiredIds now st).length = _
    simp [expiredIds]
  · intro kv hkv hexp hc
    rw [hstore, List.mem_filter] at hc
    simp [hexp] at hc
  · intro kv hkv hexp
    rw [hstore, List.mem_filter]
    exact ⟨hkv, by simp [hexp]⟩
  · show (expiredIds now (cleanup_expired_images now ok st fs).1).length = 0
    rw [hstore]
    have : expiredIds now (st.filter (fun kv => !(decide (kv.2.expires_at < now)))) = [] := by
      apply List.map_eq_nil_iff.mpr
      apply List.filter_eq_nil_iff.mpr
      intro kv hkv
      have := (List.mem_filter.mp hkv).2
      simpa using this
    rw [this]
    rfl

/-- C6 witness: the amended sweep behaviour at a concrete two-entry store. -/
theorem sweep_removes_strictly_expired_witness :
    (cleanup_expired_images 5 (fun _ => true) demoStore [0, 1]).1
      = demoStore.filter (fun kv => !(decide (kv.2.expires_at < 5))) ∧
    (cleanup_expired_images 5 (fun _ => true) demoStore [0, 1]).2.2
      = (demoStore.filter (fun kv => decide (kv.2.expires_at < 5))).length := by
  have h := sweep_removes_strictly_expired 5 (fun _ => true) (fun _ => false)
    demoStore [0, 1] (by decide)
  exact ⟨h.1, h.2.1⟩

/-- C7: resolving a registered, unexpired artifact returns its file and mime
type, leaves its store entry (including `expires_at`) unchanged, and a
repeated read before expiry returns the same content — the TTL is absolute,
not sliding. -/
theorem resolve_live_no_mutation (now now2 : ℚ) (ok ok2 : Nat → Bool) (i : String)
    (st : Store) (fs fs2 : List Nat) (e : ImageEntry)
    (hnd : (st.map Prod.fst).Nodup)
    (hlook : lookupEntry st i = some e)
    (hlive : ¬ e.expires_at < now) (hlive2 : ¬ e.expires_at < now2) :
    (get_temp_image now ok i st fs).1 = ImageResult.live e.path e.mime_type ∧
    lookupEntry (get_temp_image now ok i st fs).2.1 i = some e ∧
    (get_temp_image now2 ok2 i (get_temp_image now ok i st fs).2.1 fs2).1
      = ImageResult.live e.path e.mime_type := by
  have key : ∀ (n : ℚ) (o : Nat → Bool) (s : Store) (f : List Nat),
      (s.map Prod.fst).Nodup → lookupEntry s i = some e → ¬ e.expires_at < n →
      lookupEntry (cleanup_expired_images n o s f).1 i = some e := by
    intro n o s f hnd' hlook' hlive'
    have hid : i ∉ expiredIds n s := by
      intro hc
      obtain ⟨e', he', hlt'⟩ := mem_expiredIds.mp hc
      have : e' = e := mem_eq_of_nodupKeys hnd' he' (lookupEntry_mem hlook')
      exact hlive' (this ▸ hlt')
    have hp : (!(expiredIds n s).contains i) = true := by
      simpa using hid
    calc lookupEntry (cleanup_expired_images n o s f).1 i
        = lookupEntry s i := lookupEntry_filter_key s i
          (fun k => !(expiredIds n s).contains k) hp
      _ = some e := hlook'
  have h1 := key now ok st fs hnd hlook hlive
  have hnd1 : (((cleanup_expired_images now ok st fs).1).map Prod.fst).Nodup :=
    nodupKeys_filter _ hnd
  have hr1 : (get_temp_image now ok i st fs).1 = ImageResult.live e.path e.mime_type := by
    simp [get_temp_image, h1, hlive]
  have hst1 : (get_temp_image now ok i st fs).2.1 = (cleanup_expired_images now ok st fs).1 := by
    simp [get_temp_image, h1, hlive]
  refine ⟨hr1, ?_, ?_⟩
  · rw [hst1]; exact h1
  · rw [hst1]
    have h2 := key now2 ok2 (cleanup_expired_images now ok st fs).1 fs2 hnd1 h1 hlive2
    simp [get_temp_image, h2, hlive2]

/-- C7 witness: a concrete live artifact read twice before expiry. -/
theorem resolve_live_no_mutation_witness :
    (get_temp_image 10 (fun _ => true) "b" demoStore [0, 1]).1
      = ImageResult.live 1 "image/jpeg" ∧
    lookupEntry (get_temp_image 10 (fun _ => true) "b" demoStore [0, 1]).2.1 "b"
      = some ⟨1, 10, "image/jpeg"⟩ := by
  have h := resolve_live_no_mutation 10 10 (fun _ => true) (fun _ => true) "b"
    demoStore [0, 1] [1] ⟨1, 10, "image/jpeg"⟩ (by decide) (by decide)
    (by norm_num) (by norm_num)
  exact ⟨h.1, h.2.1⟩

/-! ## Claim theorems about the merge computation -/

/-- C4 counterexample: with an explicit `target_duration = 0.0` the sync
duration is `min(video, audio)`, not the given target — `if target_duration:`
is false for `0.0` in Python. -/
theorem sync_duration_zero_target_counterexample :
    sync_duration (some 0) 10 5 ≠ 0 ∧
    sync_duration (some 0) 10 5 = min 10 5 := by
  constructor
  · norm_num [sync_duration]
  · norm_num [sync_duration]

/-- C4 (amended): the sync duration equals the explicit `target_duration`
whenever one is given and nonzero; when it is absent — or given as `0.0`,
which Python truthiness treats as absent — it is
`min(video_duration, audio_duration)`.  With `target_duration = 8.0` the sync
duration is 8.0 regardless of input durations, and with video 10s, audio 5s
and no target it is 5s. -/
theorem sync_duration_truthy_target (t vd ad : ℚ) :
    sync_duration none vd ad = min vd ad ∧
    (t ≠ 0 → sync_duration (some t) vd ad = t) ∧
    sync_duration (some 0) vd ad = min vd ad ∧
    sync_duration (some 8) vd ad = 8 ∧
    sync_duration none 10 5 = 5 := by
  refine ⟨rfl, ?_, ?_, ?_, ?_⟩
  · intro h; simp [sync_duration, h]
  · simp [sync_duration]
  · norm_num [sync_duration]
  · norm_num [sync_duration, min_def]

/-- C4 witness: the nonzero-target clause at `target_duration = 8`. -/
theorem sync_duration_truthy_target_witness :
    (8 : ℚ) ≠ 0 ∧ sync_duration (some 8) 10 5 = 8 :=
  ⟨by norm_num, (sync_duration_truthy_target 8 10 5).2.1 (by norm_num)⟩

/-- C8: the video speed factor is `video_duration / audio_duration` whenever
`audio_duration > 0` and defaults to 1.0 otherwise (in particular at
`audio_duration = 0`, so the division is never taken with a zero divisor);
video 10s and audio 5s give a factor of 2.0. -/
theorem speed_factor_guarded (vd ad : ℚ) :
    (0 < ad → speed_factor vd ad = vd / ad) ∧
    (ad = 0 → speed_factor vd ad = 1) ∧
    speed_factor 10 5 = 2 := by
  refine ⟨?_, ?_, ?_⟩
  · intro h; simp [speed_factor, h]
  · intro h; simp [speed_factor, h]
  · norm_num [speed_factor]

/-- C8 witness: the guarded division at video 10s, audio 5s. -/
theorem speed_factor_guarded_witness :
    (0 : ℚ) < 5 ∧ speed_factor 10 5 = 10 / 5 :=
  ⟨by norm_num, (speed_factor_guarded 10 5).1 (by norm_num)⟩

/-! ## Claim theorem for v1/v2 equivalence -/

theorem v2_downloadAll_eq : V2.downloadAll = downloadAll := by
  have hdf : V2.download_file = download_file := rfl
  funext env urls
  induction urls with
  | nil => rfl
  | cons u rest ih =>
    funext fs
    rw [V2.downloadAll, downloadAll, hdf, ih]

/-- C10: the merge and stitch pipelines of `src/main.py` and
`src/main_v2.py` are behaviourally identical on every input: the same
downloads, the same sync-duration and speed-factor computations, the same
constructed `ffprobe`/`ffmpeg` argument vectors, the same success responses
and the same error mapping. -/
theorem v2_equivalence :
    V2.merge = merge ∧ V2.stitch = stitch ∧
    V2.merge_audio_video = merge_audio_video ∧
    V2.stitch_videos = stitch_videos ∧
    V2.download_file = download_file ∧
    V2.downloadAll = downloadAll ∧
    V2.get_duration = get_duration ∧
    V2.probeCmd = probeCmd ∧
    V2.mergeCmd = mergeCmd ∧
    V2.sync_duration = sync_duration ∧
    V2.speed_factor = speed_factor := by
  have hsv : V2.stitch_videos = stitch_videos := rfl
  have hstitch : V2.stitch = stitch := by
    funext env req fs
    rw [V2.stitch, stitch, v2_downloadAll_eq, hsv]
  exact ⟨rfl, hstitch, rfl, rfl, rfl, v2_downloadAll_eq, rfl, rfl, rfl, rfl, rfl⟩

/-! ## Claim theorems about the endpoint error paths -/

/-- C2: a stitch request with a single source URL fails before any download —
no `requests.get` call, no subprocess, no temp file — but the client receives
HTTP 500, not 400: the handler's own `HTTPException(400, "At least 2 videos
are required")` is caught by its blanket `except Exception` clause
(`src/main.py` lines 257-258) and re-raised as
`HTTPException(500, str(e))`. -/
theorem stitch_single_url_maps_to_500 :
    (stitch demoEnv ⟨["http://host/a.mp4"]⟩ fs0).1
      = Response.error 500 (httpExcStr 400 "At least 2 videos are required") ∧
    (stitch demoEnv ⟨["http://host/a.mp4"]⟩ fs0).1
      = Response.error 500 "400: At least 2 videos are required" ∧
    (stitch demoEnv ⟨["http://host/a.mp4"]⟩ fs0).2.events = [] ∧
    (stitch demoEnv ⟨["http://host/a.mp4"]⟩ fs0).2.files = [] :=
  ⟨rfl, rfl, rfl, rfl⟩

/-- C5: extracting frame `7.0` from a 6s video fails before any extraction —
the video is downloaded and probed, zero `ffmpeg` frame commands run, the
input video is unlinked, the store is untouched, and the error detail names
the offending timestamp — but the status is HTTP 500, not 400: the
out-of-range `HTTPException(400, ...)` (`src/main.py` lines 290-293) is
caught by the handler's blanket `except Exception` (lines 364-365) and
re-raised as a 500.  When all timestamps are in range (here `[1, 3, 5]`
against the 6s video), exactly one frame per timestamp is produced, in list
order. -/
theorem extract_frames_out_of_range_maps_to_500 :
    (extract_frames_endpoint demoEnv ⟨"http://host/v.mp4", [7], false, 300⟩ 1000 [] fs0).1
      = Response.error 500 (httpExcStr 400 ("Timestamp " ++ demoEnv.fmt 7
          ++ "s is out of range. Video duration is " ++ demoEnv.fmt 6 ++ "s")) ∧
    (extract_frames_endpoint demoEnv ⟨"http://host/v.mp4", [7], false, 300⟩ 1000 [] fs0).2.2.events
      = [Ev.httpGet "http://host/v.mp4", Ev.ran (probeCmd demoEnv 0)] ∧
    (extract_frames_endpoint demoEnv ⟨"http://host/v.mp4", [7], false, 300⟩ 1000 [] fs0).2.2.files
      = [] ∧
    (extract_frames_endpoint demoEnv ⟨"http://host/v.mp4", [7], false, 300⟩ 1000 [] fs0).2.1
      = [] ∧
    (extract_frames_endpoint demoEnv ⟨"http://host/v.mp4", [1, 3, 5], false, 300⟩
        1000 [] fs0).1
      = Response.frames "http://host/v.mp4" 6 "base64"
          [⟨1, 0, FramePayload.b64 (demoEnv.contents 1),
              "frame_0_at_" ++ demoEnv.fmt 1 ++ "s.jpg"⟩,
           ⟨3, 1, FramePayload.b64 (demoEnv.contents 2),
              "frame_1_at_" ++ demoEnv.fmt 3 ++ "s.jpg"⟩,
           ⟨5, 2, FramePayload.b64 (demoEnv.contents 3),
              "frame_2_at_" ++ demoEnv.fmt 5 ++ "s.jpg"⟩] ∧
    (extract_frames_endpoint demoEnv ⟨"http://host/v.mp4", [1, 3, 5], false, 300⟩
        1000 [] fs0).2.2.files = [] :=
  ⟨rfl, rfl, rfl, rfl, rfl, rfl⟩

/-! ## Helper lemmas for the temp-file accounting of merge and stitch -/

theorem download_file_some {env : Env} {u : String} {fs : FS} {p : Nat} {fs' : FS}
    (h : download_file env u fs = (some p, fs')) :
    p = fs.counter ∧
    fs' = ⟨fs.counter + 1, fs.files ++ [fs.counter], fs.events ++ [Ev.httpGet u]⟩ := by
  unfold download_file newTemp at h
  split at h
  · simp only [Prod.mk.injEq, Option.some.injEq] at h
    exact ⟨h.1.symm, h.2.symm⟩
  · simp at h

theorem merge_audio_video_fs {env : Env} {a b c : Nat} {t : Option ℚ} {fs : FS}
    {out : ToolOutcome} {fs' : FS}
    (h : merge_audio_video env a b c t fs = (out, fs')) :
    fs'.files = fs.files ∧ fs'.counter = fs.counter := by
  unfold merge_audio_video get_duration at h
  split at h
  · next fsx heq =>
    dsimp only at heq
    injection heq with e1 e2
    subst e2
    injection h with h1 h2
    subst h2
    exact ⟨rfl, rfl⟩
  · next vd fsx heq =>
    dsimp only at heq
    injection heq with e1 e2
    subst e2
    split at h
    · next fsy heq2 =>
      dsimp only at heq2
      injection heq2 with e3 e4
      subst e4
      injection h with h1 h2
      subst h2
      exact ⟨rfl, rfl⟩
    · next ad fsy heq2 =>
      dsimp only at heq2
      injection heq2 with e3 e4
      subst e4
      dsimp only at h
      split at h
      · injection h with h1 h2
        subst h2
        exact ⟨rfl, rfl⟩
      · injection h with h1 h2
        subst h2
        exact ⟨rfl, rfl⟩

theorem stitch_videos_ok {env : Env} {ps : List Nat} {op : Nat} {fs fs' : FS}
    (h : stitch_videos env ps op fs = (ToolOutcome.ok, fs')) :
    fs'.files = fs.files.filter (fun q => decide (q ≠ fs.counter)) := by
  unfold stitch_videos newTemp removeFile at h
  split at h
  next cn fsx heq =>
    injection heq with e1 e2
    subst e1
    subst e2
    dsimp only at h
    split at h
    · injection h with h1 h2
      subst h2
      simp [List.filter_append]
    · injection h with h1 h2
      simp at h1

theorem foldl_removeFile_files :
    ∀ (ps : List Nat) (fs : FS),
      (ps.foldl (fun acc p => removeFile p acc) fs).files
        = fs.files.filter (fun q => decide (q ∉ ps)) := by
  intro ps
  induction ps with
  | nil => intro fs; simp
  | cons p rest ih =>
    intro fs
    rw [List.foldl_cons, ih]
    show (removeFile p fs).files.filter _ = _
    unfold removeFile
    rw [List.filter_filter]
    apply List.filter_congr
    intro q hq
    simp only [List.mem_cons, not_or, decide_not]
    cases hqp : decide (q = p) <;> cases hqr : decide (q ∈ rest) <;> simp_all

theorem downloadAll_ok_spec (env : Env) :
    ∀ (urls : List String) (fs : FS) (ps : List Nat) (fs' : FS),
      downloadAll env urls fs = (Except.ok ps, fs') →
      fs'.files = fs.files ++ ps ∧ fs'.counter = fs.counter + ps.length ∧
      ∀ p ∈ ps, fs.counter ≤ p ∧ p < fs'.counter := by
  intro urls
  induction urls with
  | nil =>
    intro fs ps fs' h
    unfold downloadAll at h
    simp only [Prod.mk.injEq, Except.ok.injEq] at h
    obtain ⟨rfl, rfl⟩ := h
    simp
  | cons u rest ih =>
    intro fs ps fs' h
    unfold downloadAll at h
    split at h
    · next fs1 heq => simp at h
    · next p1 fs1 heq =>
      obtain ⟨rfl, rfl⟩ := download_file_some heq
      split at h
      · next u2 fs2 heq2 => simp at h
      · next ps2 fs2 heq2 =>
        simp only [Prod.mk.injEq, Except.ok.injEq] at h
        obtain ⟨rfl, rfl⟩ := h
        obtain ⟨h1, h2, h3⟩ := ih _ _ _ heq2
        refine ⟨by rw [h1]; simp, by rw [h2]; simp; omega, ?_⟩
        intro q hq
        rcases List.mem_cons.mp hq with rfl | hq2
        · refine ⟨le_refl _, ?_⟩
          rw [h2]
          simp
          omega
        · obtain ⟨hq3, hq4⟩ := h3 q hq2
          simp at hq3
          exact ⟨by omega, hq4⟩

theorem merge_pair_success {env : Env} {req : MergeRequest} {res : Response} {fse : FS}
    (h : merge env req fs0 = (res, fse)) {out : Nat} {mt fn : String}
    (hres : res = Response.file out mt fn) : fse.files = [out] := by
  subst hres
  unfold merge at h
  split at h
  · next fsx heq => simp at h
  · next vp fsv heq =>
    obtain ⟨rfl, rfl⟩ := download_file_some heq
    split at h
    · next fsx heq2 => simp at h
    · next ap fsa heq2 =>
      obtain ⟨rfl, rfl⟩ := download_file_some heq2
      unfold newTemp at h
      split at h
      next op fso heq3 =>
        injection heq3 with e1 e2
        subst e1
        subst e2
        split at h
        · next p fsm heq4 => simp at h
        · next cmd fsm heq4 => simp at h
        · next fsm heq4 =>
          obtain ⟨hff, hcc⟩ := merge_audio_video_fs heq4
          dsimp only at h
          simp only [Prod.mk.injEq, Response.file.injEq] at h
          obtain ⟨⟨rfl, rfl, rfl⟩, h2⟩ := h
          rw [← h2]
          show ((removeFile _ (removeFile _ fsm)).files) = _
          unfold removeFile
          rw [hff]
          simp [fs0]

theorem stitch_pair_success {env : Env} {req : StitchRequest} {res : Response} {fse : FS}
    (h : stitch env req fs0 = (res, fse)) {out : Nat} {mt fn : String}
    (hres : res = Response.file out mt fn) : fse.files = [out] := by
  subst hres
  unfold stitch at h
  split at h
  · simp at h
  · split at h
    · next u2 fs1 heq => simp at h
    · next ps fs1 heq =>
      obtain ⟨hfiles, hcount, hbound⟩ := downloadAll_ok_spec env _ _ _ _ heq
      unfold newTemp at h
      split at h
      next op fs2 heq2 =>
        injection heq2 with e1 e2
        subst e1
        subst e2
        split at h
        · next p fs3 heq3 => simp at h
        · next cmd fs3 heq3 => simp at h
        · next fs3 heq3 =>
          have hsv := stitch_videos_ok heq3
          dsimp only at h
          simp only [Prod.mk.injEq, Response.file.injEq] at h
          obtain ⟨⟨rfl, rfl, rfl⟩, h2⟩ := h
          rw [← h2, foldl_removeFile_files, hsv]
          dsimp only
          have hc : ∀ x ∈ fs1.files ++ [fs1.counter],
              (fun q => decide (q ≠ fs1.counter + 1)) x = true := by
            intro x hx
            rcases List.mem_append.mp hx with hx1 | hx2
            · rw [hfiles] at hx1
              simp [fs0] at hx1
              have := (hbound x hx1).2
              simp only [decide_eq_true_eq]
              omega
            · simp at hx2
              subst hx2
              simp only [decide_eq_true_eq]
              omega
          rw [List.filter_eq_self.mpr hc, List.filter_append]
          have hnil : fs1.files.filter (fun q => decide (q ∉ ps)) = [] := by
            apply List.filter_eq_nil_iff.mpr
            intro a ha
            rw [hfiles] at ha
            simp [fs0] at ha
            simp [ha]
          have hone : [fs1.counter].filter (fun q => decide (q ∉ ps)) = [fs1.counter] := by
            have hnot : fs1.counter ∉ ps := by
              intro hc2
              have := (hbound _ hc2).2
              omega
            simp [hnot]
          rw [hnil, hone]
          rfl

/-! ## Claim theorems about temp-file cleanup -/

/-- C3 counterexample: in a merge where the video downloads but the audio
fetch fails, the request completes (HTTP 400) with the downloaded video's
temp file still on disk — cleanup does not run on this exit path. -/
theorem merge_leaks_video_on_audio_fetch_failure :
    (merge envAudioFails ⟨"http://host/v.mp4", "http://host/a.mp3", none⟩ fs0).1
      = Response.error 400 ("Failed to download file: "
          ++ envAudioFails.fetchErr "http://host/a.mp3") ∧
    (merge envAudioFails ⟨"http://host/v.mp4", "http://host/a.mp3", none⟩ fs0).2.files
      = [0] ∧
    (merge envAudioFails ⟨"http://host/v.mp4", "http://host/a.mp3", none⟩ fs0).2.files
      ≠ [] :=
  ⟨rfl, rfl, by decide⟩


theorem extract_frames_ok_spec (env : Env) (v : Nat) :
    ∀ (ts : List ℚ) (fs : FS) (fps : List Nat) (fs' : FS),
      extract_frames env v ts fs = (Except.ok fps, fs') →
      fs'.files = fs.files ++ fps ∧ fs'.counter = fs.counter + fps.length ∧
      (∀ p ∈ fps, fs.counter ≤ p ∧ p < fs'.counter) ∧
      fps.length = ts.length := by
  intro ts
  induction ts with
  | nil =>
    intro fs fps fs' h
    unfold extract_frames at h
    simp only [Prod.mk.injEq, Except.ok.injEq] at h
    obtain ⟨rfl, rfl⟩ := h
    simp
  | cons t rest ih =>
    intro fs fps fs' h
    unfold extract_frames newTemp at h
    split at h
    next fp fsx heq =>
      injection heq with e1 e2
      subst e1
      subst e2
      dsimp only at h
      split at h
      · split at h
        · next c fsy heq2 => simp at h
        · next ps2 fsy heq2 =>
          simp only [Prod.mk.injEq, Except.ok.injEq] at h
          obtain ⟨rfl, rfl⟩ := h
          obtain ⟨h1, h2, h3, h4⟩ := ih _ _ _ heq2
          refine ⟨by rw [h1]; simp, by rw [h2]; simp; omega, ?_, by simp [h4]⟩
          intro q hq
          rcases List.mem_cons.mp hq with rfl | hq2
          · refine ⟨le_refl _, ?_⟩
            rw [h2]
            simp
            omega
          · obtain ⟨hq3, hq4⟩ := h3 q hq2
            simp at hq3
            exact ⟨by omega, hq4⟩
      · simp at h

theorem encodeFrames_files (env : Env) :
    ∀ (l : List (ℚ × Nat)) (i : Nat) (fs : FS),
      (encodeFrames env l i fs).2.files
        = fs.files.filter (fun q => decide (q ∉ l.map Prod.snd)) := by
  intro l
  induction l with
  | nil => intro i fs; simp [encodeFrames]
  | cons p rest ih =>
    intro i fs
    obtain ⟨ts, fp⟩ := p
    cases hrec : encodeFrames env rest (i + 1) (removeFile fp fs) with
    | mk infos fs2 =>
      have hih := ih (i + 1) (removeFile fp fs)
      rw [hrec] at hih
      simp only [encodeFrames, hrec]
      rw [hih]
      unfold removeFile
      rw [List.filter_filter]
      apply List.filter_congr
      intro q hq
      simp only [List.map_cons, List.mem_cons, not_or, decide_not]
      cases hqp : decide (q = fp) <;> cases hqr : decide (q ∈ rest.map Prod.snd) <;>
        simp_all

theorem stitch_videos_fail {env : Env} {ps : List Nat} {op : Nat} {fs : FS}
    {cmd : List String} {fs' : FS}
    (h : stitch_videos env ps op fs = (ToolOutcome.ffmpegFail cmd, fs')) :
    fs'.files = fs.files ++ [fs.counter] := by
  unfold stitch_videos newTemp at h
  split at h
  next cn fsx heq =>
    injection heq with e1 e2
    subst e1
    subst e2
    dsimp only at h
    split at h
    · injection h with h1 h2
      simp at h1
    · injection h with h1 h2
      subst h2
      rfl

theorem stitch_videos_ne_probeFail {env : Env} {ps : List Nat} {op : Nat} {fs : FS}
    {p : Nat} {fs' : FS} :
    stitch_videos env ps op fs ≠ (ToolOutcome.probeFail p, fs') := by
  intro h
  unfold stitch_videos newTemp at h
  split at h
  next cn fsx heq =>
    dsimp only at h
    split at h
    · injection h with h1 h2
      simp at h1
    · injection h with h1 h2
      simp at h1

theorem merge_pair_500 {env : Env} {req : MergeRequest} {res : Response} {fse : FS}
    (h : merge env req fs0 = (res, fse)) {d : String}
    (hres : res = Response.error 500 d) : fse.files = [0, 1, 2] := by
  subst hres
  unfold merge at h
  split at h
  · next fsx heq => simp at h
  · next vp fsv heq =>
    obtain ⟨rfl, rfl⟩ := download_file_some heq
    split at h
    · next fsx heq2 => simp at h
    · next ap fsa heq2 =>
      obtain ⟨rfl, rfl⟩ := download_file_some heq2
      unfold newTemp at h
      split at h
      next op fso heq3 =>
        injection heq3 with e1 e2
        subst e1
        subst e2
        split at h
        · next p fsm heq4 =>
          obtain ⟨hff, hcc⟩ := merge_audio_video_fs heq4
          simp only [Prod.mk.injEq] at h
          obtain ⟨h1, h2⟩ := h
          subst h2
          rw [hff]
          simp [fs0]
        · next cmd fsm heq4 =>
          obtain ⟨hff, hcc⟩ := merge_audio_video_fs heq4
          simp only [Prod.mk.injEq] at h
          obtain ⟨h1, h2⟩ := h
          subst h2
          rw [hff]
          simp [fs0]
        · next fsm heq4 =>
          dsimp only at h
          simp at h

theorem stitch_pair_500 {env : Env} {req : StitchRequest} {res : Response} {fse : FS}
    (h : stitch env req fs0 = (res, fse)) (hlen : 2 ≤ req.video_urls.length)
    {d : String} (hres : res = Response.error 500 d) :
    ∃ (ps : List Nat) (fs1 : FS),
      downloadAll env req.video_urls fs0 = (Except.ok ps, fs1) ∧
      fse.files = ps ++ [ps.length, ps.length + 1] := by
  subst hres
  unfold stitch at h
  split at h
  · next hcond => exact absurd hlen (by omega)
  · split at h
    · next u2 fs1 heq => simp at h
    · next ps fs1 heq =>
      obtain ⟨hfiles, hcount, hbound⟩ := downloadAll_ok_spec env _ _ _ _ heq
      unfold newTemp at h
      split at h
      next op fs2 heq2 =>
        injection heq2 with e1 e2
        subst e1
        subst e2
        split at h
        · next p fs3 heq3 => exact absurd heq3 stitch_videos_ne_probeFail
        · next cmd fs3 heq3 =>
          have hsf := stitch_videos_fail heq3
          simp only [Prod.mk.injEq] at h
          obtain ⟨h1, h2⟩ := h
          subst h2
          refine ⟨ps, fs1, heq, ?_⟩
          rw [hsf]
          dsimp only
          rw [hfiles, hcount]
          simp [fs0]
        · next fs3 heq3 =>
          dsimp only at h
          simp at h

theorem extract_pair_frames {env : Env} {req : FrameExtractRequest} {now : ℚ}
    {res : Response} {st2 : Store} {fse : FS}
    (h : extract_frames_endpoint env req now [] fs0 = (res, st2, fse))
    {u : String} {vd : ℚ} {rt : String} {fr : List FrameInfo}
    (hres : res = Response.frames u vd rt fr) :
    (0 : Nat) ∉ fse.files ∧ (req.return_urls = false → fse.files = []) := by
  subst hres
  unfold extract_frames_endpoint get_duration at h
  split at h
  · simp at h
  · split at h
    · next fsx heq => simp at h
    · next vp fs1 heq =>
      obtain ⟨rfl, rfl⟩ := download_file_some heq
      split at h
      · next fsy heq2 =>
        dsimp only at heq2
        injection heq2 with e1 e2
        subst e2
        simp at h
      · next vdur fsy heq2 =>
        dsimp only at heq2
        injection heq2 with e1 e2
        subst e2
        split at h
        · next ts hfind => simp at h
        · next hfind =>
          split at h
          · next cmd fsz heq3 => simp at h
          · next fps fs3 heq3 =>
            dsimp only at h
            have hclean : ∀ (fl : List Nat),
                cleanup_expired_images now env.unlinkOk [] fl = ([], fl, 0) := fun _ => rfl
            rw [hclean] at h
            dsimp only at h
            split at h
            · next hurls =>
              simp only [Prod.mk.injEq] at h
              obtain ⟨h1, h2, h3⟩ := h
              subst h3
              refine ⟨?_, ?_⟩
              · dsimp only
                unfold removeFile
                simp [fs0]
              · intro hfalse
                rw [hurls] at hfalse
                simp at hfalse
            · next hurls =>
              simp only [Prod.mk.injEq] at h
              obtain ⟨h1, h2, h3⟩ := h
              obtain ⟨hfls, hcnt, hbnd, hlen⟩ := extract_frames_ok_spec env _ _ _ _ _ heq3
              have hEf : fse.files = (removeFile fs0.counter fs3).files.filter
                  (fun q => decide (q ∉ (req.timestamps.zip fps).map Prod.snd)) := by
                rw [← h3]
                exact encodeFrames_files env (req.timestamps.zip fps) 0
                  (removeFile fs0.counter fs3)
              have hmap : (req.timestamps.zip fps).map Prod.snd = fps :=
                List.map_snd_zip _ _ (le_of_eq hlen)
              rw [hmap] at hEf
              have hnil : fse.files = [] := by
                rw [hEf]
                apply List.filter_eq_nil_iff.mpr
                intro a ha
                unfold removeFile at ha
                dsimp only at ha
                rw [List.mem_filter] at ha
                obtain ⟨ha1, ha2⟩ := ha
                rw [hfls] at ha1
                rcases List.mem_append.mp ha1 with hb | hb
                · dsimp only at hb
                  simp [fs0] at hb ha2
                  exact absurd hb ha2
                · simp [hb]
              exact ⟨by simp [hnil], fun _ => hnil⟩

theorem merge_audio_fetch_leak (env : Env) (req : MergeRequest)
    (h1 : env.fetchOk req.video_url = true) (h2 : env.fetchOk req.audio_url = false) :
    (merge env req fs0).1 = Response.error 400
      ("Failed to download file: " ++ env.fetchErr req.audio_url) ∧
    (merge env req fs0).2.files = [0] := by
  simp [merge, download_file, newTemp, fs0, h1, h2]

theorem extract_validation_cleanup (env : Env) (req : FrameExtractRequest) (now : ℚ)
    (vd ts : ℚ)
    (h0 : req.timestamps.isEmpty = false)
    (h1 : env.fetchOk req.video_url = true)
    (h2 : env.probe 0 = some vd)
    (h3 : req.timestamps.find? (fun t => decide (t < 0 ∨ vd < t)) = some ts) :
    (extract_frames_endpoint env req now [] fs0).1
      = Response.error 500 (httpExcStr 400 ("Timestamp " ++ env.fmt ts
          ++ "s is out of range. Video duration is " ++ env.fmt vd ++ "s")) ∧
    (extract_frames_endpoint env req now [] fs0).2.2.files = [] := by
  simp only [Bool.decide_or] at h3
  simp [extract_frames_endpoint, download_file, newTemp, get_duration, removeFile,
    fs0, h0, h1, h2, h3]

theorem extract_probe_leak (env : Env) (req : FrameExtractRequest) (now : ℚ)
    (h0 : req.timestamps.isEmpty = false)
    (h1 : env.fetchOk req.video_url = true)
    (h2 : env.probe 0 = none) :
    (extract_frames_endpoint env req now [] fs0).1
      = Response.error 500 (env.probeFailDetail 0) ∧
    (extract_frames_endpoint env req now [] fs0).2.2.files = [0] := by
  simp [extract_frames_endpoint, download_file, newTemp, get_duration, fs0, h0, h1, h2]

theorem extract_first_frame_leak (env : Env) (req : FrameExtractRequest) (now : ℚ)
    (vd ts0 : ℚ) (rest : List ℚ)
    (hts : req.timestamps = ts0 :: rest)
    (h1 : env.fetchOk req.video_url = true)
    (h2 : env.probe 0 = some vd)
    (h3 : req.timestamps.find? (fun t => decide (t < 0 ∨ vd < t)) = none)
    (h4 : env.ffmpegOk (frameCmd env ts0 0 1) = false) :
    (extract_frames_endpoint env req now [] fs0).1
      = Response.error 500 ("FFmpeg error: " ++ env.stderr (frameCmd env ts0 0 1)) ∧
    (extract_frames_endpoint env req now [] fs0).2.2.files = [0, 1] := by
  rw [hts] at h3
  simp only [Bool.decide_or] at h3
  simp [extract_frames_endpoint, download_file, newTemp, get_duration, extract_frames,
    fs0, hts, h1, h2, h3, h4]

/-- C3 (amended): every temporary input file created during a merge, stitch
or extract-frames request is deleted on the success path — a successful merge
or stitch leaves exactly the output file on disk, and a successful
extract-frames deletes its downloaded video (in base64 mode leaving no
temporary file at all) — and extract-frames also deletes its video input when
timestamp validation fails.  On the other exit paths cleanup does not run and
the files created before the failure leak: a merge whose audio fetch fails
leaves the downloaded video; a merge failing in probe or tool leaves the
video, audio and output files; a stitch failing in the tool leaves every
downloaded input plus its output and concat-list scratch files; an
extract-frames failing in the probe leaves the video; and one whose first
frame extraction fails leaves the video and the first frame file.
(Endpoints are run from a fresh request world `fs0` and, for extract-frames,
an empty artifact store.) -/
theorem temp_file_cleanup_by_exit_path :
    (∀ (env : Env) (req : MergeRequest) (out : Nat) (mt fn : String),
        (merge env req fs0).1 = Response.file out mt fn →
        (merge env req fs0).2.files = [out]) ∧
    (∀ (env : Env) (req : StitchRequest) (out : Nat) (mt fn : String),
        (stitch env req fs0).1 = Response.file out mt fn →
        (stitch env req fs0).2.files = [out]) ∧
    (∀ (env : Env) (req : FrameExtractRequest) (now : ℚ) (u : String) (vd : ℚ)
        (rt : String) (fr : List FrameInfo),
        (extract_frames_endpoint env req now [] fs0).1 = Response.frames u vd rt fr →
        (0 : Nat) ∉ (extract_frames_endpoint env req now [] fs0).2.2.files ∧
        (req.return_urls = false →
          (extract_frames_endpoint env req now [] fs0).2.2.files = [])) ∧
    (∀ (env : Env) (req : FrameExtractRequest) (now : ℚ) (vd ts : ℚ),
        req.timestamps.isEmpty = false →
        env.fetchOk req.video_url = true →
        env.probe 0 = some vd →
        req.timestamps.find? (fun t => decide (t < 0 ∨ vd < t)) = some ts →
        (extract_frames_endpoint env req now [] fs0).2.2.files = []) ∧
    (∀ (env : Env) (req : MergeRequest),
        env.fetchOk req.video_url = true → env.fetchOk req.audio_url = false →
        (merge env req fs0).2.files = [0]) ∧
    (∀ (env : Env) (req : MergeRequest) (d : String),
        (merge env req fs0).1 = Response.error 500 d →
        (merge env req fs0).2.files = [0, 1, 2]) ∧
    (∀ (env : Env) (req : StitchRequest) (d : String),
        2 ≤ req.video_urls.length →
        (stitch env req fs0).1 = Response.error 500 d →
        ∃ (ps : List Nat) (fs1 : FS),
          downloadAll env req.video_urls fs0 = (Except.ok ps, fs1) ∧
          (stitch env req fs0).2.files = ps ++ [ps.length, ps.length + 1]) ∧
    (∀ (env : Env) (req : FrameExtractRequest) (now : ℚ),
        req.timestamps.isEmpty = false →
        env.fetchOk req.video_url = true →
        env.probe 0 = none →
        (extract_frames_endpoint env req now [] fs0).2.2.files = [0]) ∧
    (∀ (env : Env) (req : FrameExtractRequest) (now : ℚ) (vd ts0 : ℚ) (rest : List ℚ),
        req.timestamps = ts0 :: rest →
        env.fetchOk req.video_url = true →
        env.probe 0 = some vd →
        req.timestamps.find? (fun t => decide (t < 0 ∨ vd < t)) = none →
        env.ffmpegOk (frameCmd env ts0 0 1) = false →
        (extract_frames_endpoint env req now [] fs0).2.2.files = [0, 1]) :=
  ⟨fun _ _ _ _ _ h => merge_pair_success rfl h,
   fun _ _ _ _ _ h => stitch_pair_success rfl h,
   fun _ _ _ _ _ _ _ h => extract_pair_frames rfl h,
   fun env req now vd ts h0 h1 h2 h3 =>
     (extract_validation_cleanup env req now vd ts h0 h1 h2 h3).2,
   fun env req h1 h2 => (merge_audio_fetch_leak env req h1 h2).2,
   fun _ _ _ h => merge_pair_500 rfl h,
   fun _ _ _ hlen h => stitch_pair_500 rfl hlen h,
   fun env req now h0 h1 h2 => (extract_probe_leak env req now h0 h1 h2).2,
   fun env req now vd ts0 rest hts h1 h2 h3 h4 =>
     (extract_first_frame_leak env req now vd ts0 rest hts h1 h2 h3 h4).2⟩

/-- C3 witness: a fully successful merge leaves only its output file, and a
merge whose audio fetch fails leaves exactly the downloaded video file. -/
theorem temp_file_cleanup_by_exit_path_witness :
    (merge demoEnv ⟨"http://host/v.mp4", "http://host/a.mp3", none⟩ fs0).2.files = [2] ∧
    (merge envAudioFails ⟨"http://host/v.mp4", "http://host/a.mp3", none⟩ fs0).2.files
      = [0] :=
  ⟨temp_file_cleanup_by_exit_path.1 demoEnv
      ⟨"http://host/v.mp4", "http://host/a.mp3", none⟩ 2 "video/mp4"
      "merged_output.mp4" rfl,
   temp_file_cleanup_by_exit_path.2.2.2.2.1 envAudioFails
      ⟨"http://host/v.mp4", "http://host/a.mp3", none⟩ (by decide) (by decide)⟩

end FfmpegService
